import Mathlib

set_option maxRecDepth 100000

/-!
Verification development for the ICP Prompt Tester repository.

The definitions below are shallow embeddings of the JavaScript/TypeScript
source of the repository:

* the Response Scorer (`extractInsights`, `calculateConfidence`) from the
  Express server file (`src/unnamed/part_000`),
* the Prompt Compiler (`generatePrompt`) from the React component
  `AnswerCollector` (`src/unnamed/part_006` and
  `src/ICP_Prompt_Tester/src/components/AnswerCollector.tsx`),
* the Version Resolver (`createPrompt`), deletion (`deletePrompt`), test
  result persistence (`createTestResult`) and the analytics queries from
  `src/server/database.js`,
* the rate-limit retry loop of the `POST /api/test` route from
  `src/unnamed/part_000`.

Numeric JS values are embedded as `Nat`/`ℚ`; JS exceptions as explicit
error values; the SQLite tables as Lean lists of rows.  JS strings are
embedded as Lean `String`; `String.length` counts characters where JS
counts UTF-16 units, which agree on the ASCII data appearing in every
statement below.
-/

/-- `charsStartWith hay needle` is true when `needle` is a prefix of
`hay` (character lists). -/
def charsStartWith : List Char → List Char → Bool
  | _, [] => true
  | [], _ :: _ => false
  | a :: as, b :: bs => a == b && charsStartWith as bs

/-- `charsContain hay needle`: does `needle` occur contiguously inside
`hay`?  Mirrors JavaScript `String.prototype.includes`. -/
def charsContain (needle : List Char) : List Char → Bool
  | [] => needle.isEmpty
  | c :: rest => charsStartWith (c :: rest) needle || charsContain needle rest

/-- JS `s.includes(pat)`. -/
def strIncludes (s pat : String) : Bool :=
  charsContain pat.toList s.toList

/-- JS `s.toLowerCase()` (on the ASCII data of this development, where it
agrees with per-character lowercasing). -/
def jsToLowerCase (s : String) : String :=
  String.mk (s.toList.map Char.toLower)

/-- Whitespace removal on both ends of a character list. -/
def trimChars (cs : List Char) : List Char :=
  ((cs.dropWhile Char.isWhitespace).reverse.dropWhile Char.isWhitespace).reverse

/-- JS `s.trim()` (JS trims the Unicode whitespace set; on the ASCII data
of this development it agrees with `Char.isWhitespace`). -/
def jsTrim (s : String) : String :=
  String.mk (trimChars s.toList)

/-- Split a character list at every occurrence of the (non-empty)
separator, scanning left to right; `fuel` bounds the recursion and is
exact whenever `fuel > cs.length`.  `acc` holds the current piece
reversed. -/
def jsSplitAux (sep : List Char) : Nat → List Char → List Char → List (List Char)
  | _, [], acc => [acc.reverse]
  | 0, cs, acc => [acc.reverse ++ cs]
  | fuel + 1, c :: rest, acc =>
    if charsStartWith (c :: rest) sep then
      acc.reverse :: jsSplitAux sep fuel (rest.drop (sep.length - 1)) []
    else
      jsSplitAux sep fuel rest (c :: acc)

/-- JS `s.split(sep)` for a non-empty separator. -/
def jsSplit (s sep : String) : List String :=
  (jsSplitAux sep.toList (s.toList.length + 1) s.toList []).map String.mk

/-- Concatenation of a list of strings (used to state what the prompt
compiler's append loop produces). -/
def concatStrings : List String → String
  | [] => ""
  | s :: rest => s ++ concatStrings rest

/-! ### Response Scorer — `calculateConfidence` (src/unnamed/part_000 lines 366-387) -/

/-- The fixed keyword list of `calculateConfidence`:
`const analyticalKeywords = ['analysis', 'insight', 'pattern', 'recommendation', 'conclusion'];` -/
def analyticalKeywords : List String :=
  ["analysis", "insight", "pattern", "recommendation", "conclusion"]

/-- `response.includes('\n') || response.includes('-') || response.includes('1.')` -/
def hasStructureMarkers (response : String) : Bool :=
  strIncludes response "\n" || strIncludes response "-" || strIncludes response "1."

/-- `analyticalKeywords.filter(keyword => response.toLowerCase().includes(keyword))` -/
def foundKeywords (response : String) : List String :=
  analyticalKeywords.filter (fun kw => strIncludes (jsToLowerCase response) kw)

/-- Embedding of `calculateConfidence` (src/unnamed/part_000 lines 366-387),
with JS floating-point literals read as the rationals they denote. -/
def calculateConfidence (response : String) : ℚ :=
  let confidence : ℚ := 1/2
  let confidence := if response.length > 500 then confidence + 1/10 else confidence
  let confidence := if response.length > 1000 then confidence + 1/10 else confidence
  let confidence := if hasStructureMarkers response then confidence + 1/10 else confidence
  let confidence := confidence + ((foundKeywords response).length : ℚ) * (1/20)
  min confidence (19/20)

/-! ### Response Scorer — `extractInsights` (src/unnamed/part_000 lines 345-364) -/

/-- Splits a leading run of digits followed by a literal dot, as matched by
the JS regexes `/^\d+\./` and `/^\d+\.\s*/`; returns the characters after
the dot, or `none` when the list does not start with `digits '.'`. -/
def numDotSplit (cs : List Char) : Option (List Char) :=
  let ds := cs.takeWhile Char.isDigit
  if ds.isEmpty then none
  else
    match cs.drop ds.length with
    | '.' :: rest => some rest
    | _ => none

/-- `trimmed.startsWith('-') || trimmed.startsWith('*') || /^\d+\./.test(trimmed)` -/
def isBulletLine (t : String) : Bool :=
  match t.toList with
  | [] => false
  | c :: _ => c == '-' || c == '*' || (numDotSplit t.toList).isSome

/-- `trimmed.replace(/^[-*]\s*|^\d+\.\s*/, '')`: the regex removes one
leading `-` or `*` (with following whitespace), or else one leading
`digits '.'` run (with following whitespace); otherwise the string is
unchanged. -/
def stripMarker (t : String) : String :=
  match t.toList with
  | [] => t
  | c :: rest =>
    if c == '-' || c == '*' then String.mk (rest.dropWhile Char.isWhitespace)
    else
      match numDotSplit (c :: rest) with
      | some rest2 => String.mk (rest2.dropWhile Char.isWhitespace)
      | none => t

/-- The bullet-collection pass of `extractInsights`:
`lines = response.split('\n').filter(line => line.trim())`, then for each
line whose trimmed form starts with `-`, `*` or `digits '.'`, push the
trimmed form with that marker stripped. -/
def insightLines (response : String) : List String :=
  let lines := (jsSplit response "\n").filter (fun line => !(jsTrim line == ""))
  lines.filterMap (fun line =>
    let trimmed := jsTrim line
    if isBulletLine trimmed then some (stripMarker trimmed) else none)

/-- Embedding of `extractInsights` (src/unnamed/part_000 lines 345-364).
If no bullet/numbered line is found, the fallback keeps the pieces of
`response.split('\n\n')` whose trimmed length exceeds 50, capped at 5. -/
def extractInsights (response : String) : List String :=
  let insights := insightLines response
  if insights.isEmpty then
    (((jsSplit response "\n\n").filter (fun p => (jsTrim p).length > 50)).take 5)
  else
    insights.take 5

/-- The paragraph fallback as the specification words it: keep the split
pieces whose (untrimmed) length exceeds 50 characters.  This follows the
spec sentence, not the source; it is compared against `extractInsights`. -/
def specParagraphFallback (response : String) : List String :=
  ((jsSplit response "\n\n").filter (fun p => p.length > 50)).take 5


/-! ### Prompt Compiler — `generatePrompt`
(src/unnamed/part_006 lines 56-79 and
src/ICP_Prompt_Tester/src/components/AnswerCollector.tsx lines 81-105;
the two copies of the function are identical). -/

/-- A question as consumed by `generatePrompt`; the loop body reads only
`question.id` and `question.text` (the `type`, `required` and `options`
fields do not influence the generated prompt). -/
structure CQuestion where
  id : String
  text : String
deriving DecidableEq

/-- A value of the `answers` map: `string | string[]` in the TSX source. -/
inductive Answer where
  | str (s : String)
  | list (l : List String)
deriving DecidableEq

/-- `Array.isArray(answer) ? answer.join(', ') : answer` -/
def answerText : Answer → String
  | .str s => s
  | .list l => String.intercalate ", " l

/-- The JS guard `answer && answer !== ''` evaluated on a present answer:
a string is truthy iff non-empty (and then trivially `!== ''`); an array
is always truthy and, being an object, is never strictly equal to `''`. -/
def answerTruthy : Answer → Bool
  | .str s => !(s == "")
  | .list _ => true

/-- Embedding of `generatePrompt`: the fixed preamble built before the
loop over `questions`. -/
def promptPreamble (promptName : String) : String :=
  "Custom Analysis Prompt\n\nName: " ++ promptName ++ "\n\nContext:\n" ++
    "All answers define our customers ICP for webshop matching\n"

/-- The fixed trailing instruction line appended after the loop. -/
def promptTrailer : String :=
  "\nInstructions: Analyze JSON data with focus on patterns and recommendations.\n"

/-- Embedding of the `generatePrompt` closure.  `excluded` is the
`excludedQuestions` set (as a list of question ids), `answers` the
`answers` object (`None` models an absent key). -/
def generatePrompt (promptName : String) (questions : List CQuestion)
    (excluded : List String) (answers : String → Option Answer) : String :=
  let base := promptPreamble promptName
  let withLines := questions.foldl (fun acc question =>
    if excluded.contains question.id then acc
    else
      match answers question.id with
      | none => acc
      | some answer =>
        if answerTruthy answer then
          acc ++ "- " ++ question.text ++ ": " ++ answerText answer ++ "\n"
        else acc) base
  withLines ++ promptTrailer

/-- The text one loop iteration appends for a single question (empty when
the iteration appends nothing). -/
def questionContribution (excluded : List String)
    (answers : String → Option Answer) (question : CQuestion) : String :=
  if excluded.contains question.id then ""
  else
    match answers question.id with
    | none => ""
    | some answer =>
      if answerTruthy answer then
        "- " ++ question.text ++ ": " ++ answerText answer ++ "\n"
      else ""

/-- Non-emptiness of an answer in the sense of the specification: a
non-empty string, or a non-empty list. -/
def answerNonEmpty : Answer → Bool
  | .str s => !(s == "")
  | .list l => !(l == [])

/-! ### Version Resolver — `Database.createPrompt`
(src/server/database.js lines 268-314). -/

/-- A row of the `prompts` table.  The JSON payload columns (`questions`,
`answers`, `generated_prompt`, `tags`, `created_at`) are stored verbatim
and never inspected by the versioning, deletion or analytics logic, so
they are omitted from the row. -/
structure PromptRow where
  id : String
  name : String
  basePromptId : Option String
  version : Nat
deriving DecidableEq

/-- One comparison step of
`SELECT id, version FROM prompts WHERE name = ? ORDER BY version DESC LIMIT 1`:
scan the table keeping the row of the given name with the largest
version (the first such row when versions tie). -/
def latestStep (name : String) (acc : Option PromptRow) (r : PromptRow) : Option PromptRow :=
  if r.name == name then
    match acc with
    | none => some r
    | some b => if b.version < r.version then some r else acc
  else acc

/-- The row returned by the `ORDER BY version DESC LIMIT 1` query. -/
def latestPromptNamed (table : List PromptRow) (name : String) : Option PromptRow :=
  table.foldl (latestStep name) none

/-- Embedding of `Database.createPrompt`: read the most recent prompt of
the same name, then INSERT a row whose `version` and `base_prompt_id`
are derived from it.  Returns the created row and the new table. -/
def createPrompt (table : List PromptRow) (id name : String) : PromptRow × List PromptRow :=
  let existingPrompt := latestPromptNamed table name
  let basePromptId := existingPrompt.map (fun p => p.id)
  let version := match existingPrompt with
    | some p => p.version + 1
    | none => 1
  let row : PromptRow := ⟨id, name, basePromptId, version⟩
  (row, table ++ [row])

/-- Sequential prompt creation: one `createPrompt` call per id in `ids`,
all with the same name, each seeing the table produced by the previous
call.  Returns the created rows in creation order and the final table. -/
def createSeq (table : List PromptRow) (name : String) : List String → List PromptRow × List PromptRow
  | [] => ([], table)
  | id :: ids =>
    let step := createPrompt table id name
    let rest := createSeq step.2 name ids
    (step.1 :: rest.1, rest.2)

/-! ### Test results, deletion and analytics (src/server/database.js). -/

/-- A row of the `test_results` table, restricted to the columns the
deletion and analytics logic reads.  The remaining payload columns
(`json_data`, `result_summary`, `result_insights`, `chatgpt_response`,
`model`, `error_message`, ...) are stored verbatim and never inspected
by those queries. -/
structure TestResultRow where
  id : String
  promptId : String
  confidence : ℚ
  processingTime : Int
  tokensUsed : Int
  costUsd : ℚ
  success : Int
  timestamp : String
deriving DecidableEq

/-- The input of `Database.createTestResult` (the fields the INSERT
statement reads from its argument). -/
structure TestResultInput where
  id : String
  promptId : String
  confidence : ℚ
  processingTime : Int
  tokensUsed : Int
  costUsd : ℚ
  timestamp : String
deriving DecidableEq

/-- Embedding of `Database.createTestResult` (src/server/database.js
lines 383-426): the INSERT statement lists every column except
`success` and `error_message`, so the row receives the schema default
`success INTEGER DEFAULT 1` (lines 59-78). -/
def createTestResult (input : TestResultInput) (table : List TestResultRow) : List TestResultRow :=
  table ++ [{ id := input.id
              promptId := input.promptId
              confidence := input.confidence
              processingTime := input.processingTime
              tokensUsed := input.tokensUsed
              costUsd := input.costUsd
              success := 1
              timestamp := input.timestamp }]

/-- The persistent state touched by prompt deletion: the `prompts` and
`test_results` tables. -/
structure DbState where
  prompts : List PromptRow
  results : List TestResultRow
deriving DecidableEq

/-- The single error the embedded deletion can raise: SQLite's foreign
key violation (PRAGMA foreign_keys = ON is set in `initialize`). -/
inductive DbErr where
  | fkViolation
deriving DecidableEq

/-- The `message` of the corresponding sqlite3 `Error` object. -/
def dbErrMessage : DbErr → String
  | .fkViolation => "SQLITE_CONSTRAINT: FOREIGN KEY constraint failed"

/-- Embedding of `Database.deletePrompt` (src/server/database.js lines
335-351).  Step 1 runs `DELETE FROM test_results WHERE prompt_id = ?`
(nothing references `test_results`, so it cannot fail); step 2 runs
`DELETE FROM prompts WHERE id = ?`, which SQLite rejects with a FOREIGN
KEY violation when a deleted row is still referenced by a remaining
`prompts.base_prompt_id` or `test_results.prompt_id`.  Returns the state
after whatever statements executed, plus the error if one was raised. -/
def deletePrompt (id : String) (s : DbState) : DbState × Option DbErr :=
  let afterResults : DbState :=
    { s with results := s.results.filter (fun r => !(r.promptId == id)) }
  let rowExists := afterResults.prompts.any (fun p => p.id == id)
  let stillReferenced :=
    afterResults.prompts.any (fun q => !(q.id == id) && q.basePromptId == some id) ||
      afterResults.results.any (fun r => r.promptId == id)
  if rowExists && stillReferenced then
    (afterResults, some .fkViolation)
  else
    ({ afterResults with prompts := afterResults.prompts.filter (fun p => !(p.id == id)) }, none)

/-- Embedding of the `DELETE /api/prompts/:id` route (src/unnamed/part_000
lines 170-186): on success answer 200; on an error whose message contains
`FOREIGN KEY constraint failed` answer 400 with the remediation message,
otherwise 500.  Returns the resulting database state, HTTP status and
response body. -/
def deletePromptRoute (id : String) (s : DbState) : DbState × Nat × String :=
  match deletePrompt id s with
  | (s2, none) => (s2, 200, "success: true")
  | (s2, some e) =>
    if strIncludes (dbErrMessage e) "FOREIGN KEY constraint failed" then
      (s2, 400,
        "Cannot delete prompt: It has dependent data (test results or versioned prompts). Please delete the dependent data first.")
    else
      (s2, 500, "Failed to delete prompt")

/-- `DATE(timestamp)` on the ISO-8601 strings the server stores: the
calendar-date part, i.e. the first 10 characters. -/
def dateOf (r : TestResultRow) : String :=
  ⟨r.timestamp.toList.take 10⟩

/-- One output row of `Database.getPromptAnalytics`. -/
structure PromptAnalyticsRow where
  date : String
  totalTests : Nat
  avgConfidence : ℚ
  avgProcessingTime : ℚ
  successRate : ℚ
  totalTokens : Int
  totalCost : ℚ
deriving DecidableEq

/-- Embedding of `Database.getPromptAnalytics` (src/server/database.js
lines 453-486): filter `test_results` by prompt id and the optional
`DATE(timestamp)` bounds, group by calendar date, and aggregate.
`SUM(CASE WHEN success = 1 THEN 1 ELSE 0 END) * 100.0 / COUNT(*)` is the
`successRate` field.  The `ORDER BY date DESC` of the query only permutes
the returned rows and is not modelled. -/
def getPromptAnalytics (promptId : String) (startDate endDate : Option String)
    (table : List TestResultRow) : List PromptAnalyticsRow :=
  let filtered := table.filter (fun r =>
    r.promptId == promptId &&
      (match startDate with
       | none => true
       | some d => d ≤ dateOf r) &&
      (match endDate with
       | none => true
       | some d => dateOf r ≤ d))
  let dates := (filtered.map dateOf).dedup
  dates.map (fun d =>
    let g := filtered.filter (fun r => dateOf r == d)
    { date := d
      totalTests := g.length
      avgConfidence := (g.map (fun r => r.confidence)).sum / (g.length : ℚ)
      avgProcessingTime := ((g.map (fun r => r.processingTime)).sum : ℚ) / (g.length : ℚ)
      successRate := ((g.countP (fun r => r.success == 1) : ℚ) * 100) / (g.length : ℚ)
      totalTokens := (g.map (fun r => r.tokensUsed)).sum
      totalCost := (g.map (fun r => r.costUsd)).sum })

/-- One output row of `Database.getOverallAnalytics`.  The aggregate
columns are `Option`-valued: with `COUNT(tr.id) = 0` (a prompt with no
test results under the LEFT JOIN) SQLite's AVG and the division by the
count yield NULL. -/
structure OverallAnalyticsRow where
  promptId : String
  promptName : String
  version : Nat
  totalTests : Nat
  avgConfidence : Option ℚ
  avgProcessingTime : Option ℚ
  successRate : Option ℚ
  totalTokens : Int
  totalCost : ℚ
deriving DecidableEq

/-- Embedding of `Database.getOverallAnalytics` (src/server/database.js
lines 488-511): LEFT JOIN of `prompts` with `test_results`, grouped per
prompt.  The `ORDER BY total_tests DESC` only permutes rows and is not
modelled; `MAX(tr.timestamp)` is not read by any claim and is omitted. -/
def getOverallAnalytics (prompts : List PromptRow) (table : List TestResultRow) :
    List OverallAnalyticsRow :=
  prompts.map (fun p =>
    let g := table.filter (fun r => r.promptId == p.id)
    { promptId := p.id
      promptName := p.name
      version := p.version
      totalTests := g.length
      avgConfidence :=
        if g.length == 0 then none else some ((g.map (fun r => r.confidence)).sum / (g.length : ℚ))
      avgProcessingTime :=
        if g.length == 0 then none
        else some (((g.map (fun r => r.processingTime)).sum : ℚ) / (g.length : ℚ))
      successRate :=
        if g.length == 0 then none
        else some (((g.countP (fun r => r.success == 1) : ℚ) * 100) / (g.length : ℚ))
      totalTokens := (g.map (fun r => r.tokensUsed)).sum
      totalCost := (g.map (fun r => r.costUsd)).sum })

/-! ### Test Runner retry loop — `POST /api/test`
(src/unnamed/part_000 lines 251-289). -/

/-- The outcome of one `openai.chat.completions.create` call: either a
completion content string, or a thrown error carrying an HTTP `status`
(429 for a rate limit). -/
inductive CallResult where
  | ok (content : String)
  | err (status : Nat)
deriving DecidableEq

/-- An error propagating out of the retry loop. -/
inductive RunnerError where
  /-- A rethrown upstream API error with its `status`. -/
  | apiError (status : Nat)
  /-- The `TypeError: Assignment to constant variable.` raised by
  `retryDelay *= 2`: `retryDelay` is declared `const retryDelay = 2000`
  on line 255, so the reassignment on line 281 throws. -/
  | constAssignTypeError
  /-- The `TypeError` of reading `completion.choices` when the loop
  exits without ever assigning `completion` (unreachable from the
  route's entry state). -/
  | undefinedCompletion
deriving DecidableEq

instance {ε α : Type} [DecidableEq ε] [DecidableEq α] : DecidableEq (Except ε α) :=
  fun a b =>
    match a, b with
    | .ok x, .ok y =>
      if h : x = y then isTrue (by rw [h]) else isFalse (by simp [h])
    | .error x, .error y =>
      if h : x = y then isTrue (by rw [h]) else isFalse (by simp [h])
    | .ok _, .error _ => isFalse (by simp)
    | .error _, .ok _ => isFalse (by simp)

/-- What one run of the retry loop produced: how many upstream calls
were made, the sleep durations (ms) in order, and the result. -/
structure RunOutcome where
  attempts : Nat
  sleeps : List Nat
  result : Except RunnerError String
deriving DecidableEq

/-- `const maxRetries = 3;` -/
def maxRetries : Nat := 3

/-- `const retryDelay = 2000;` -/
def initialRetryDelay : Nat := 2000

/-- `retryDelay *= 2` — the variable is a `const` binding, so JavaScript
throws `TypeError: Assignment to constant variable.` instead of storing
the doubled value. -/
def constReassign (_newValue : Nat) : Except RunnerError Nat :=
  .error .constAssignTypeError

/-- The `while (retryCount < maxRetries)` loop.  `upstream n` is the
outcome of the `(n+1)`-st completion call; `fuel` bounds the iteration
count (any `fuel ≥ maxRetries` is exact, since `retryCount` strictly
increases on every iteration that continues). -/
def retryLoopGo (upstream : Nat → CallResult) :
    Nat → Nat → Nat → Nat → List Nat → RunOutcome
  | 0, _, _, attempts, sleeps => ⟨attempts, sleeps, .error .undefinedCompletion⟩
  | fuel + 1, retryCount, retryDelay, attempts, sleeps =>
    if retryCount < maxRetries then
      match upstream attempts with
      | .ok content => ⟨attempts + 1, sleeps, .ok content⟩
      | .err status =>
        if status == 429 then
          if retryCount + 1 < maxRetries then
            match constReassign (retryDelay * 2) with
            | .error e => ⟨attempts + 1, sleeps ++ [retryDelay], .error e⟩
            | .ok newDelay =>
              retryLoopGo upstream fuel (retryCount + 1) newDelay (attempts + 1)
                (sleeps ++ [retryDelay])
          else ⟨attempts + 1, sleeps, .error (.apiError status)⟩
        else ⟨attempts + 1, sleeps, .error (.apiError status)⟩
    else ⟨attempts, sleeps, .error .undefinedCompletion⟩

/-- The retry loop as entered by the route: `retryCount = 0`,
`retryDelay = 2000`, no calls made yet. -/
def runTestCompletion (upstream : Nat → CallResult) : RunOutcome :=
  retryLoopGo upstream maxRetries 0 initialRetryDelay 0 []

/-- A mock upstream that rate-limits on every call. -/
def alwaysRateLimited : Nat → CallResult := fun _ => .err 429

/-- A mock upstream that rate-limits twice, then succeeds. -/
def rateLimitTwiceThenOk : Nat → CallResult := fun n =>
  if n < 2 then .err 429 else .ok "done"

/-! ### Concrete inputs used by the witnesses and counterexamples. -/

/-- Answers map giving question `q1` the empty-list answer `[]`. -/
def emptyListAnswers : String → Option Answer := fun questionId =>
  if questionId == "q1" then some (Answer.list []) else none

/-- The single question used in the Prompt Compiler counterexample. -/
def sampleQuestion : CQuestion := ⟨"q1", "Q"⟩

/-- A 54-character single-paragraph text: 48 `x`s padded by 3 spaces on
each side.  Its untrimmed length exceeds 50 but its trimmed length does
not. -/
def paddedParagraph : String :=
  "   " ++ String.mk (List.replicate 48 'x') ++ "   "

/-- Text with three bullet lines and two plain paragraphs, each
paragraph longer than 50 characters. -/
def bulletsAndParagraphs : String :=
  "This opening paragraph is plainly longer than fifty characters in total.\n\n- first bullet\n- second bullet\n* third bullet\n\nThis closing paragraph is also longer than fifty characters in total."

/-- A response containing all five analytical keywords, a structure
marker, and more than 1000 characters. -/
def longKeywordResponse : String :=
  "analysis insight pattern recommendation conclusion - 1." ++
    String.mk (List.replicate 1000 'x')

/-- Database state with one prompt and one test result attached to it. -/
def stateWithResult : DbState :=
  { prompts := [⟨"p1", "A", none, 1⟩]
    results := [⟨"r1", "p1", 13/20, 5, 0, 0, 1, "2024-01-02T03:04:05.000Z"⟩] }

/-- Database state where prompt `p2` references `p1` via
`base_prompt_id`, and a test result is attached to `p1`. -/
def stateWithChild : DbState :=
  { prompts := [⟨"p1", "A", none, 1⟩, ⟨"p2", "A", some "p1", 2⟩]
    results := [⟨"r1", "p1", 13/20, 5, 0, 0, 1, "2024-01-02T03:04:05.000Z"⟩] }

/-- Answers map giving question `q1` the non-empty string answer
`"ans"`. -/
def sampleAnswers : String → Option Answer := fun questionId =>
  if questionId == "q1" then some (Answer.str "ans") else none

/-- A test-result table produced by `createTestResult` alone, used to
instantiate the analytics claims. -/
def sampleResults : List TestResultRow :=
  createTestResult ⟨"r1", "p1", 13/20, 5, 7, 1/100, "2024-01-02T03:04:05.000Z"⟩
    (createTestResult ⟨"r2", "p1", 3/5, 4, 8, 1/100, "2024-01-03T09:00:00.000Z"⟩ [])


/-! ## Helper lemmas -/

/-- A left fold whose step appends `f a` to the accumulator produces the
accumulator followed by the concatenation of the images. -/
theorem foldl_append_concat (f : α → String) (step : String → α → String)
    (hstep : ∀ acc a, step acc a = acc ++ f a) :
    ∀ (l : List α) (acc : String), l.foldl step acc = acc ++ concatStrings (l.map f) := by
  intro l
  induction l with
  | nil => intro acc; simp [concatStrings]
  | cons a t ih =>
    intro acc
    simp only [List.foldl_cons, List.map_cons, concatStrings, ih, hstep,
      String.append_assoc]

/-- The prompt compiler's loop decomposes into the per-question
contributions. -/
theorem generatePrompt_decomp (promptName : String) (questions : List CQuestion)
    (excluded : List String) (answers : String → Option Answer) :
    generatePrompt promptName questions excluded answers =
      promptPreamble promptName ++
        concatStrings (questions.map (questionContribution excluded answers)) ++
        promptTrailer := by
  unfold generatePrompt
  dsimp only
  rw [foldl_append_concat (questionContribution excluded answers)]
  intro acc q
  unfold questionContribution
  by_cases hex : excluded.contains q.id = true
  · rw [if_pos hex, if_pos hex, String.append_empty]
  · rw [if_neg hex, if_neg hex]
    cases hans : answers q.id with
    | none => simp
    | some a =>
      by_cases htr : answerTruthy a = true
      · simp [htr, String.append_assoc]
      · simp [htr]

/-- A spec-non-empty answer passes the JS truthiness guard. -/
theorem answerTruthy_of_nonEmpty (a : Answer) (h : answerNonEmpty a = true) :
    answerTruthy a = true := by
  cases a with
  | str s => exact h
  | list l => rfl

/-- `deletePrompt` has exactly two outcomes: a foreign-key failure after
the test results were already removed, or a success removing both the
test results and the prompt row. -/
theorem deletePrompt_shape (id : String) (s : DbState) :
    deletePrompt id s =
        ({ prompts := s.prompts,
           results := s.results.filter (fun r => !(r.promptId == id)) },
          some DbErr.fkViolation)
    ∨ deletePrompt id s =
        ({ prompts := s.prompts.filter (fun p => !(p.id == id)),
           results := s.results.filter (fun r => !(r.promptId == id)) }, none) := by
  unfold deletePrompt
  dsimp only
  split
  · left; rfl
  · right; rfl

/-- The deletion of test results happens unconditionally, before the
prompt-row delete is attempted. -/
theorem deletePrompt_results (id : String) (s : DbState) :
    (deletePrompt id s).1.results = s.results.filter (fun r => !(r.promptId == id)) := by
  rcases deletePrompt_shape id s with h | h <;> rw [h]

/-- On a successful delete, the prompt row is removed as well. -/
theorem deletePrompt_prompts_of_ok (id : String) (s : DbState)
    (h : (deletePrompt id s).2 = none) :
    (deletePrompt id s).1.prompts = s.prompts.filter (fun p => !(p.id == id)) := by
  rcases deletePrompt_shape id s with h2 | h2 <;> rw [h2]
  · rw [h2] at h
    simp at h

/-- The sqlite3 foreign-key message contains the substring the route
handler tests for. -/
theorem fk_message_match :
    strIncludes (dbErrMessage DbErr.fkViolation) "FOREIGN KEY constraint failed" = true := by
  decide

/-! ## C1 — `POST /api/test` retry loop -/

/-- C1: the retry loop of `POST /api/test` at its failure modes.  The
claim says an always-rate-limited upstream is attempted 3 times with
2000 ms and 4000 ms sleeps before the 429 error propagates, and that two
rate limits followed by success return the completion.  The code instead
declares `const retryDelay = 2000` and executes `retryDelay *= 2` after
the first sleep, which throws `TypeError: Assignment to constant
variable.`: one upstream attempt is made, one 2000 ms sleep occurs, and
the TypeError propagates.  Only the no-retry-on-other-errors part of the
claim holds. -/
theorem testRoute_retry_const_bug :
    runTestCompletion alwaysRateLimited = ⟨1, [2000], .error .constAssignTypeError⟩
    ∧ runTestCompletion rateLimitTwiceThenOk = ⟨1, [2000], .error .constAssignTypeError⟩
    ∧ runTestCompletion (fun _ => .err 500) = ⟨1, [], .error (.apiError 500)⟩
    ∧ runTestCompletion (fun _ => .ok "done") = ⟨1, [], .ok "done"⟩ := by
  exact ⟨by decide, by decide, by decide, by decide⟩

/-! ## C3 — scorer scenario `"- insight one\n- insight two"` -/

/-- Evaluation of the scorer on the scenario completion text: the
structure bonus applies (the text contains a newline and dashes), and
the keyword `insight` is found. -/
theorem scorer_scenario_eval :
    calculateConfidence "- insight one\n- insight two" = 13/20 := by
  have h5 : ¬ (("- insight one\n- insight two" : String).length > 500) := by decide
  have h10 : ¬ (("- insight one\n- insight two" : String).length > 1000) := by decide
  have hs : hasStructureMarkers "- insight one\n- insight two" = true := by decide
  have hk : foundKeywords "- insight one\n- insight two" = ["insight"] := by decide
  simp only [calculateConfidence, h5, h10, hs, hk, if_true, if_false, List.length_singleton,
    Nat.cast_one, ite_true, ite_false]
  norm_num [min_def]

/-- C3 counterexample: the claimed confidence 0.6 is wrong for the
completion `"- insight one\n- insight two"` — the text contains the
analytical keyword `insight`, so the keyword bonus applies. -/
theorem scorerScenario_cex :
    ¬ (calculateConfidence "- insight one\n- insight two" = 3/5) := by
  rw [scorer_scenario_eval]
  norm_num

/-- C3 (amended): the scenario yields insights `["insight one",
"insight two"]` and confidence 0.65 = 0.5 base + 0.1 structure bonus
+ 0.05 for the keyword `insight` found in the text. -/
theorem scorerScenario_amended :
    extractInsights "- insight one\n- insight two" = ["insight one", "insight two"]
    ∧ calculateConfidence "- insight one\n- insight two" = 13/20 :=
  ⟨by decide, scorer_scenario_eval⟩

/-! ## C7 — insight extraction -/

/-- C7 counterexample: the claim's paragraph fallback keeps split pieces
whose length exceeds 50 characters, but the code filters on the TRIMMED
length.  `paddedParagraph` (length 54, trimmed length 48, no bullet
lines) is kept by the claim's fallback and dropped by the code. -/
theorem extractInsights_fallback_cex :
    insightLines paddedParagraph = []
    ∧ extractInsights paddedParagraph = []
    ∧ specParagraphFallback paddedParagraph = [paddedParagraph]
    ∧ ¬ (extractInsights paddedParagraph = specParagraphFallback paddedParagraph) := by
  exact ⟨by decide, by decide, by decide, by decide⟩

/-- C7 (amended): when at least one bullet/numbered line exists, the
extraction returns exactly the stripped bullet lines capped at 5 and the
fallback is ignored; with zero such lines it returns the split pieces
whose trimmed length exceeds 50, capped at 5; three bullet lines plus
two long plain paragraphs yield exactly the three bullet lines. -/
theorem extractInsights_spec (r : String) :
    (¬ insightLines r = [] → extractInsights r = (insightLines r).take 5)
    ∧ (insightLines r = [] →
        extractInsights r =
          ((jsSplit r "\n\n").filter (fun p => (jsTrim p).length > 50)).take 5)
    ∧ extractInsights bulletsAndParagraphs =
        ["first bullet", "second bullet", "third bullet"] := by
  refine ⟨?_, ?_, by decide⟩
  · intro h
    cases hE : insightLines r with
    | nil => exact absurd hE h
    | cons a t => simp [extractInsights, hE]
  · intro h
    simp [extractInsights, h]

/-- Witness for `extractInsights_spec` at the bullets-and-paragraphs
text. -/
theorem extractInsights_spec_witness :
    (¬ insightLines bulletsAndParagraphs = [])
    ∧ extractInsights bulletsAndParagraphs = (insightLines bulletsAndParagraphs).take 5 :=
  ⟨by decide, (extractInsights_spec bulletsAndParagraphs).1 (by decide)⟩

/-! ## C6 — confidence formula -/

/-- C6: `calculateConfidence` equals the additive formula clamped at
0.95; it always lies in `[0.5, 0.95]`; with all five keywords, length
above 1000 and a structure marker it is exactly 0.95; on the empty text
it is exactly 0.5. -/
theorem calculateConfidence_props (r : String) :
    calculateConfidence r =
        min ((1/2 : ℚ) + (if r.length > 500 then 1/10 else 0)
          + (if r.length > 1000 then 1/10 else 0)
          + (if hasStructureMarkers r then 1/10 else 0)
          + ((foundKeywords r).length : ℚ) * (1/20)) (19/20)
    ∧ (1/2 : ℚ) ≤ calculateConfidence r
    ∧ calculateConfidence r ≤ 19/20
    ∧ (r.length > 1000 → hasStructureMarkers r = true →
        (∀ kw ∈ analyticalKeywords, strIncludes (jsToLowerCase r) kw = true) →
        calculateConfidence r = 19/20)
    ∧ calculateConfidence "" = 1/2 := by
  have hkw0 : (0 : ℚ) ≤ ((foundKeywords r).length : ℚ) * (1/20) := by positivity
  have heq : calculateConfidence r =
      min ((1/2 : ℚ) + (if r.length > 500 then 1/10 else 0)
        + (if r.length > 1000 then 1/10 else 0)
        + (if hasStructureMarkers r then 1/10 else 0)
        + ((foundKeywords r).length : ℚ) * (1/20)) (19/20) := by
    unfold calculateConfidence
    dsimp only
    split_ifs <;> norm_num
  refine ⟨heq, ?_, ?_, ?_, ?_⟩
  · rw [heq]
    apply le_min
    · split_ifs <;> linarith [hkw0]
    · norm_num
  · rw [heq]; exact min_le_right _ _
  · intro h1000 hstr hall
    have h500 : r.length > 500 := by omega
    have hfk : foundKeywords r = analyticalKeywords :=
      List.filter_eq_self.mpr (fun kw hkw => hall kw hkw)
    rw [heq, if_pos h500, if_pos h1000, if_pos hstr, hfk]
    rw [min_eq_right (by norm_num [analyticalKeywords])]
  · have hs : hasStructureMarkers "" = false := by decide
    have hk : foundKeywords "" = [] := by decide
    have h5 : ¬ (("" : String).length > 500) := by decide
    have h10 : ¬ (("" : String).length > 1000) := by decide
    simp only [calculateConfidence, hs, hk, h5, h10, if_false, ite_false, List.length_nil,
      Nat.cast_zero, zero_mul, add_zero, Bool.false_eq_true]
    rw [min_eq_left (by norm_num)]

/-- Witness for `calculateConfidence_props` at a long all-keywords
response. -/
theorem calculateConfidence_props_witness :
    (longKeywordResponse.length > 1000
      ∧ hasStructureMarkers longKeywordResponse = true
      ∧ (∀ kw ∈ analyticalKeywords, strIncludes (jsToLowerCase longKeywordResponse) kw = true))
    ∧ calculateConfidence longKeywordResponse = 19/20 :=
  ⟨⟨by decide, by decide, by decide⟩,
    (calculateConfidence_props longKeywordResponse).2.2.2.1 (by decide) (by decide) (by decide)⟩

/-! ## C5 — prompt compiler structure -/

/-- C5: the generated prompt is the fixed preamble, then one appended
contribution per question in order, then the fixed trailing instruction
line; an excluded question contributes nothing; a non-excluded question
with a present, non-empty answer contributes exactly its
`- <text>: <answer>` line (list answers joined by `", "` inside
`answerText`).  Totality of `generatePrompt` (the compiler never fails)
is immediate from it being a function. -/
theorem generatePrompt_spec (promptName : String) (questions : List CQuestion)
    (excluded : List String) (answers : String → Option Answer) :
    generatePrompt promptName questions excluded answers =
        promptPreamble promptName ++
          concatStrings (questions.map (questionContribution excluded answers)) ++
          promptTrailer
    ∧ (∀ q ∈ questions, excluded.contains q.id = true →
        questionContribution excluded answers q = "")
    ∧ (∀ q ∈ questions, excluded.contains q.id = false →
        ∀ a, answers q.id = some a → answerNonEmpty a = true →
          questionContribution excluded answers q =
            "- " ++ q.text ++ ": " ++ answerText a ++ "\n") := by
  refine ⟨generatePrompt_decomp promptName questions excluded answers, ?_, ?_⟩
  · intro q _ hex
    unfold questionContribution
    rw [if_pos hex]
  · intro q _ hex a hans hne
    unfold questionContribution
    rw [if_neg (by rw [hex]; exact Bool.false_ne_true), hans]
    dsimp only
    rw [if_pos (answerTruthy_of_nonEmpty a hne)]

/-- Witness for `generatePrompt_spec`: a single included question with a
non-empty string answer contributes its line. -/
theorem generatePrompt_spec_witness :
    (sampleQuestion ∈ [sampleQuestion]
      ∧ (([] : List String).contains sampleQuestion.id = false)
      ∧ sampleAnswers sampleQuestion.id = some (Answer.str "ans")
      ∧ answerNonEmpty (Answer.str "ans") = true)
    ∧ questionContribution [] sampleAnswers sampleQuestion =
        "- " ++ sampleQuestion.text ++ ": " ++ answerText (Answer.str "ans") ++ "\n" :=
  ⟨⟨by simp, by decide, by decide, by decide⟩,
    (generatePrompt_spec "n" [sampleQuestion] [] sampleAnswers).2.2 sampleQuestion
      (by simp) (by decide) (Answer.str "ans") (by decide) (by decide)⟩

/-! ## C4 — empty answers -/

/-- C4 counterexample: a question answered with the empty list `[]` DOES
produce a line in the generated prompt.  In JS, `[]` is truthy and
`[] !== ''`, so the guard `answer && answer !== ''` passes and the line
`- Q: ` (with empty joined answer) is appended. -/
theorem compiler_emptyList_cex :
    emptyListAnswers "q1" = some (Answer.list [])
    ∧ ((jsSplit (generatePrompt "n" [sampleQuestion] [] emptyListAnswers) "\n").contains
        "- Q: ") = true := by
  exact ⟨by decide, by decide⟩

/-- C4 (amended): questions with an absent or empty-string answer are
silently omitted from the generated prompt, but a question answered with
the empty list `[]` produces the line `- <text>: ` with empty answer
text. -/
theorem compiler_empty_answers_spec (promptName : String) (questions : List CQuestion)
    (excluded : List String) (answers : String → Option Answer) :
    generatePrompt promptName questions excluded answers =
        promptPreamble promptName ++
          concatStrings (questions.map (questionContribution excluded answers)) ++
          promptTrailer
    ∧ (∀ q : CQuestion, answers q.id = none → questionContribution excluded answers q = "")
    ∧ (∀ q : CQuestion, answers q.id = some (Answer.str "") →
        questionContribution excluded answers q = "")
    ∧ (∀ q : CQuestion, excluded.contains q.id = false →
        answers q.id = some (Answer.list []) →
        questionContribution excluded answers q = "- " ++ q.text ++ ": " ++ "" ++ "\n") := by
  refine ⟨generatePrompt_decomp promptName questions excluded answers, ?_, ?_, ?_⟩
  · intro q hans
    unfold questionContribution
    by_cases hex : excluded.contains q.id = true
    · rw [if_pos hex]
    · rw [if_neg hex, hans]
  · intro q hans
    unfold questionContribution
    by_cases hex : excluded.contains q.id = true
    · rw [if_pos hex]
    · rw [if_neg hex, hans]
      dsimp only [answerTruthy]
      simp
  · intro q hex hans
    unfold questionContribution
    rw [if_neg (by rw [hex]; exact Bool.false_ne_true), hans]
    dsimp only [answerTruthy, answerText]
    simp [String.intercalate]

/-- Witness for `compiler_empty_answers_spec`: the concrete empty-list
answer yields the concrete line. -/
theorem compiler_empty_answers_spec_witness :
    (([] : List String).contains sampleQuestion.id = false
      ∧ emptyListAnswers sampleQuestion.id = some (Answer.list []))
    ∧ questionContribution [] emptyListAnswers sampleQuestion =
        "- " ++ sampleQuestion.text ++ ": " ++ "" ++ "\n" :=
  ⟨⟨by decide, by decide⟩,
    (compiler_empty_answers_spec "n" [sampleQuestion] [] emptyListAnswers).2.2.2 sampleQuestion
      (by decide) (by decide)⟩

/-! ## C2 — sequential version assignment -/

/-- A row produced by the fold behind `latestPromptNamed` is either the
accumulator's content or a table row carrying the queried name. -/
theorem foldl_latestStep_mem (name : String) :
    ∀ (l : List PromptRow) (acc : Option PromptRow) (b : PromptRow),
      l.foldl (latestStep name) acc = some b →
      acc = some b ∨ (b ∈ l ∧ b.name = name) := by
  intro l
  induction l with
  | nil => intro acc b hb; exact Or.inl hb
  | cons r t ih =>
    intro acc b hb
    rw [List.foldl_cons] at hb
    rcases ih (latestStep name acc r) b hb with hstep | ⟨hmem, hname⟩
    · unfold latestStep at hstep
      by_cases hr : (r.name == name) = true
      · rw [if_pos hr] at hstep
        cases hacc : acc with
        | none =>
          rw [hacc] at hstep
          dsimp only at hstep
          injection hstep with hrb
          subst hrb
          exact Or.inr ⟨List.mem_cons_self r t, beq_iff_eq.mp hr⟩
        | some b2 =>
          rw [hacc] at hstep
          dsimp only at hstep
          by_cases hlt : b2.version < r.version
          · rw [if_pos hlt] at hstep
            injection hstep with hrb
            subst hrb
            exact Or.inr ⟨List.mem_cons_self r t, beq_iff_eq.mp hr⟩
          · rw [if_neg hlt] at hstep
            exact Or.inl hstep
      · rw [if_neg hr] at hstep
        exact Or.inl hstep
    · exact Or.inr ⟨List.mem_cons_of_mem r hmem, hname⟩

/-- When no row carries the queried name, the versioning query returns
nothing. -/
theorem latestPromptNamed_eq_none (name : String) :
    ∀ (l : List PromptRow), (∀ r ∈ l, r.name ≠ name) →
      latestPromptNamed l name = none := by
  intro l
  induction l with
  | nil => intro _; rfl
  | cons r t ih =>
    intro h
    have hr : (r.name == name) = false := by
      simpa using h r (List.mem_cons_self r t)
    unfold latestPromptNamed
    rw [List.foldl_cons]
    unfold latestStep
    rw [if_neg (by rw [hr]; exact Bool.false_ne_true)]
    exact ih (fun x hx => h x (List.mem_cons_of_mem r hx))

/-- Appending a row advances the versioning query by one `latestStep`. -/
theorem latestPromptNamed_append (l : List PromptRow) (row : PromptRow) (name : String) :
    latestPromptNamed (l ++ [row]) name = latestStep name (latestPromptNamed l name) row := by
  unfold latestPromptNamed
  rw [List.foldl_append]
  rfl

/-- `createPrompt` when a latest version exists: version is bumped and
`basePromptId` points at it. -/
theorem createPrompt_of_latest_some (table : List PromptRow) (id name : String)
    (last : PromptRow) (hL : latestPromptNamed table name = some last) :
    createPrompt table id name =
      (⟨id, name, some last.id, last.version + 1⟩,
        table ++ [⟨id, name, some last.id, last.version + 1⟩]) := by
  unfold createPrompt
  rw [hL]
  rfl

/-- `createPrompt` on a fresh name: version 1, no base pointer. -/
theorem createPrompt_of_latest_none (table : List PromptRow) (id name : String)
    (hL : latestPromptNamed table name = none) :
    createPrompt table id name =
      (⟨id, name, none, 1⟩, table ++ [⟨id, name, none, 1⟩]) := by
  unfold createPrompt
  rw [hL]
  rfl

/-- The inductive step of the versioning chain: starting from a table
whose maximal version for `name` is held by `last`, sequential creation
yields versions `last.version + 1, last.version + 2, ...`, each row's
`basePromptId` pointing at the previous row (the first at `last`). -/
theorem createSeq_chain (name : String) :
    ∀ (ids : List String) (table : List PromptRow) (last : PromptRow),
      latestPromptNamed table name = some last →
      last.name = name →
      (∀ r ∈ table, r.name = name → r.version ≤ last.version) →
      ((createSeq table name ids).1.map (fun r => r.version) =
          List.range' (last.version + 1) ids.length)
      ∧ ((createSeq table name ids).1.map (fun r => r.basePromptId) =
          (some last.id :: (createSeq table name ids).1.map (fun r => some r.id)).take
            ids.length) := by
  intro ids
  induction ids with
  | nil =>
    intro table last _ _ _
    constructor <;> rfl
  | cons id ids ih =>
    intro table last hL hname hbound
    have hcreate := createPrompt_of_latest_some table id name last hL
    set row : PromptRow := ⟨id, name, some last.id, last.version + 1⟩ with hrow
    have hrowname : row.name = name := rfl
    have hL2 : latestPromptNamed (table ++ [row]) name = some row := by
      rw [latestPromptNamed_append, hL]
      unfold latestStep
      rw [if_pos (by rw [hrowname]; exact beq_self_eq_true name)]
      dsimp only
      rw [if_pos (by show last.version < last.version + 1; omega)]
    have hbound2 : ∀ r ∈ table ++ [row], r.name = name → r.version ≤ row.version := by
      intro r hr hrname
      rcases List.mem_append.mp hr with h | h
      · have := hbound r h hrname
        show r.version ≤ last.version + 1
        omega
      · rw [List.mem_singleton.mp h]
    have hrest := ih (table ++ [row]) row hL2 hrowname hbound2
    have hseq : createSeq table name (id :: ids) =
        (row :: (createSeq (table ++ [row]) name ids).1,
          (createSeq (table ++ [row]) name ids).2) := by
      show (let step := createPrompt table id name
            let rest := createSeq step.2 name ids
            (step.1 :: rest.1, rest.2)) = _
      rw [hcreate]
    constructor
    · rw [hseq]
      dsimp only
      rw [List.map_cons, hrest.1, List.length_cons, List.range'_succ]
    · rw [hseq]
      dsimp only
      rw [List.map_cons, List.map_cons, List.length_cons, List.take_succ_cons, hrest.2]

/-- C2: starting from a table with no prompt of the given (non-empty)
name, sequentially creating one prompt per id yields versions
`1, 2, ..., k` in creation order, the first row with `basePromptId =
none` and each later row's `basePromptId` pointing at the id of the
immediately preceding row. -/
theorem createPrompt_sequential_versions (name : String) (table : List PromptRow)
    (ids : List String) (hname : name ≠ "")
    (htable : ∀ r ∈ table, r.name ≠ name) :
    ((createSeq table name ids).1.map (fun r => r.version) = List.range' 1 ids.length)
    ∧ ((createSeq table name ids).1.map (fun r => r.basePromptId) =
        (none :: (createSeq table name ids).1.map (fun r => some r.id)).take ids.length) := by
  cases ids with
  | nil => constructor <;> rfl
  | cons id ids =>
    have hL0 : latestPromptNamed table name = none := latestPromptNamed_eq_none name table htable
    have hcreate := createPrompt_of_latest_none table id name hL0
    set row : PromptRow := ⟨id, name, none, 1⟩ with hrow
    have hrowname : row.name = name := rfl
    have hL1 : latestPromptNamed (table ++ [row]) name = some row := by
      rw [latestPromptNamed_append, hL0]
      unfold latestStep
      rw [if_pos (by rw [hrowname]; exact beq_self_eq_true name)]
    have hbound1 : ∀ r ∈ table ++ [row], r.name = name → r.version ≤ row.version := by
      intro r hr hrname
      rcases List.mem_append.mp hr with h | h
      · exact absurd hrname (htable r h)
      · rw [List.mem_singleton.mp h]
    have hrest := createSeq_chain name ids (table ++ [row]) row hL1 hrowname hbound1
    have hseq : createSeq table name (id :: ids) =
        (row :: (createSeq (table ++ [row]) name ids).1,
          (createSeq (table ++ [row]) name ids).2) := by
      show (let step := createPrompt table id name
            let rest := createSeq step.2 name ids
            (step.1 :: rest.1, rest.2)) = _
      rw [hcreate]
    constructor
    · rw [hseq]
      dsimp only
      rw [List.map_cons, hrest.1, List.length_cons, List.range'_succ]
    · rw [hseq]
      dsimp only
      rw [List.map_cons, List.map_cons, List.length_cons, List.take_succ_cons, hrest.2]

/-- Witness for `createPrompt_sequential_versions`: three creations of
name `A` on an empty table give versions `[1, 2, 3]` and the base
chain. -/
theorem createPrompt_sequential_versions_witness :
    ((createSeq [] "A" ["a", "b", "c"]).1.map (fun r => r.version) = List.range' 1 3)
    ∧ ((createSeq [] "A" ["a", "b", "c"]).1.map (fun r => r.basePromptId) =
        (none :: (createSeq [] "A" ["a", "b", "c"]).1.map (fun r => some r.id)).take 3) :=
  createPrompt_sequential_versions "A" [] ["a", "b", "c"] (by decide) (by simp)

/-! ## C8 — cascading prompt deletion -/

/-- C8: after a successful `deletePrompt` no test result with the
deleted prompt id remains and the prompt row is gone; a foreign-key
failure is answered by the route with status 400 and the remediation
message. -/
theorem deletePrompt_cascade (id : String) (s : DbState) :
    ((deletePrompt id s).2 = none →
      (∀ r ∈ (deletePrompt id s).1.results, r.promptId ≠ id)
      ∧ (∀ p ∈ (deletePrompt id s).1.prompts, p.id ≠ id))
    ∧ ((deletePrompt id s).2 = some DbErr.fkViolation →
        (deletePromptRoute id s).2.1 = 400
        ∧ (deletePromptRoute id s).2.2 =
            "Cannot delete prompt: It has dependent data (test results or versioned prompts). Please delete the dependent data first.") := by
  constructor
  · intro hok
    constructor
    · intro r hr
      rw [deletePrompt_results] at hr
      have hcond := (List.mem_filter.mp hr).2
      simpa using hcond
    · intro p hp
      rw [deletePrompt_prompts_of_ok id s hok] at hp
      have hcond := (List.mem_filter.mp hp).2
      simpa using hcond
  · intro herr
    unfold deletePromptRoute
    rcases deletePrompt_shape id s with h | h
    · rw [h]
      dsimp only
      rw [if_pos fk_message_match]
      exact ⟨rfl, rfl⟩
    · rw [h] at herr
      simp at herr

/-- Witness for `deletePrompt_cascade`: a successful cascade on
`stateWithResult` and a 400 answer on `stateWithChild`. -/
theorem deletePrompt_cascade_witness :
    ((deletePrompt "p1" stateWithResult).2 = none
      ∧ (∀ r ∈ (deletePrompt "p1" stateWithResult).1.results, r.promptId ≠ "p1")
      ∧ (∀ p ∈ (deletePrompt "p1" stateWithResult).1.prompts, p.id ≠ "p1"))
    ∧ ((deletePrompt "p1" stateWithChild).2 = some DbErr.fkViolation
      ∧ (deletePromptRoute "p1" stateWithChild).2.1 = 400) :=
  ⟨⟨by decide, ((deletePrompt_cascade "p1" stateWithResult).1 (by decide)).1,
      ((deletePrompt_cascade "p1" stateWithResult).1 (by decide)).2⟩,
    ⟨by decide, ((deletePrompt_cascade "p1" stateWithChild).2 (by decide)).1⟩⟩

/-! ## C9 — deletion is not atomic on error -/

/-- C9: `deletePrompt` removes the matching test results first and
unconditionally; on `stateWithChild` the prompt-row delete then fails
with a foreign-key violation, yet the returned state has lost its test
results — the stored state changed although an error is reported. -/
theorem deletePrompt_not_atomic :
    (∀ (id : String) (s : DbState),
        (deletePrompt id s).1.results = s.results.filter (fun r => !(r.promptId == id)))
    ∧ deletePrompt "p1" stateWithChild =
        ({ prompts := stateWithChild.prompts, results := [] }, some DbErr.fkViolation)
    ∧ stateWithChild.results ≠ [] :=
  ⟨deletePrompt_results, by decide, by decide⟩

/-! ## C10 — every stored test result has `success = 1` -/

/-- All-success lists have a per-date success rate of exactly 100. -/
theorem successRate_eq_100 (l : List TestResultRow) (d : String)
    (hall : ∀ r ∈ l, r.success = 1) (r0 : TestResultRow) (hr0 : r0 ∈ l)
    (hr0d : dateOf r0 = d) :
    ((l.filter (fun r => dateOf r == d)).countP (fun r => r.success == 1) : ℚ) * 100 /
      ((l.filter (fun r => dateOf r == d)).length : ℚ) = 100 := by
  have hr0g : r0 ∈ l.filter (fun r => dateOf r == d) :=
    List.mem_filter.mpr ⟨hr0, by simp [hr0d]⟩
  have hlen : 0 < (l.filter (fun r => dateOf r == d)).length :=
    List.length_pos.mpr (List.ne_nil_of_mem hr0g)
  have hcount : (l.filter (fun r => dateOf r == d)).countP (fun r => r.success == 1)
      = (l.filter (fun r => dateOf r == d)).length := by
    rw [List.countP_eq_length]
    intro x hx
    simp [hall x (List.mem_of_mem_filter hx)]
  rw [hcount]
  have hne : ((l.filter (fun r => dateOf r == d)).length : ℚ) ≠ 0 := by
    exact_mod_cast Nat.pos_iff_ne_zero.mp hlen
  field_simp

/-- All-success non-empty groups have an overall success rate of exactly
100. -/
theorem overallRate_eq_100 (g : List TestResultRow)
    (hall : ∀ r ∈ g, r.success = 1) (h1 : 1 ≤ g.length) :
    (if g.length == 0 then none
     else some ((g.countP (fun r => r.success == 1) : ℚ) * 100 / (g.length : ℚ))) =
      some 100 := by
  have hlen : g.length ≠ 0 := by omega
  rw [if_neg (by simpa using hlen)]
  have hcount : g.countP (fun r => r.success == 1) = g.length := by
    rw [List.countP_eq_length]
    intro x hx
    simp [hall x hx]
  rw [hcount]
  have hne : (g.length : ℚ) ≠ 0 := by exact_mod_cast hlen
  field_simp

/-- C10: rows inserted by `createTestResult` always carry `success = 1`
(the INSERT omits the column, so the schema default 1 applies); hence
both analytics queries report a success rate of exactly 100 for every
date group and for every prompt with at least one test result. -/
theorem testResult_success_invariant :
    (∀ (input : TestResultInput) (table : List TestResultRow),
        ∀ r ∈ createTestResult input table, r ∈ table ∨ r.success = 1)
    ∧ (∀ (promptId : String) (startDate endDate : Option String) (table : List TestResultRow),
        (∀ r ∈ table, r.success = 1) →
        ∀ a ∈ getPromptAnalytics promptId startDate endDate table, a.successRate = 100)
    ∧ (∀ (prompts : List PromptRow) (table : List TestResultRow),
        (∀ r ∈ table, r.success = 1) →
        ∀ a ∈ getOverallAnalytics prompts table, 1 ≤ a.totalTests → a.successRate = some 100) := by
  refine ⟨?_, ?_, ?_⟩
  · intro input table r hr
    unfold createTestResult at hr
    rcases List.mem_append.mp hr with h | h
    · exact Or.inl h
    · right
      rw [List.mem_singleton.mp h]
  · intro promptId startDate endDate table hall a ha
    unfold getPromptAnalytics at ha
    rw [List.mem_map] at ha
    obtain ⟨d, hd, rfl⟩ := ha
    rw [List.mem_dedup, List.mem_map] at hd
    obtain ⟨r0, hr0, hr0d⟩ := hd
    dsimp only
    exact successRate_eq_100 _ d (fun r hr => hall r (List.mem_of_mem_filter hr)) r0 hr0 hr0d
  · intro prompts table hall a ha h1
    unfold getOverallAnalytics at ha
    rw [List.mem_map] at ha
    obtain ⟨p, hp, rfl⟩ := ha
    dsimp only at h1 ⊢
    exact overallRate_eq_100 _ (fun r hr => hall r (List.mem_of_mem_filter hr)) h1

/-- Witness for `testResult_success_invariant`: on the two-row table
built by `createTestResult` every per-date success rate is 100. -/
theorem testResult_success_invariant_witness :
    (∀ r ∈ sampleResults, r.success = 1)
    ∧ (∀ a ∈ getPromptAnalytics "p1" none none sampleResults, a.successRate = 100) :=
  ⟨by decide, testResult_success_invariant.2.1 "p1" none none sampleResults (by decide)⟩
